import Mathlib

/-!
Verification of the KYC document-processing core
(`agents/validation_agent.py`, `agents/kyc_agent.py`, `agents/audit_agent.py`).

The Python code is shallowly embedded: strings are Lean `String`s,
Python string operations (`strip`, `replace`, `endswith`, `in`,
`str.join`) are modelled over the underlying character lists, and the
three regular expressions of `kyc_agent.py` are modelled as predicates
on character lists, including Python's behaviour that a trailing `$`
anchor also matches just before a single newline at the end of the
string.  Character classes (`\d`, `[A-Z]`, `[0-9A-Z]`) are modelled
over their ASCII meaning.  The OpenCV-dependent part of the face
matcher is abstracted by an explicit environment `FaceEnv` giving the
outcome of the image work; every branch of the Python code after the
image work is modelled faithfully.
-/

namespace KycSpec

/-! ## Models of Python string primitives -/

/-- Drop whitespace characters from both ends of a character list. -/
def stripChars (l : List Char) : List Char :=
  ((l.dropWhile Char.isWhitespace).reverse.dropWhile Char.isWhitespace).reverse

/-- Model of Python `str.strip()`: drop whitespace from both ends. -/
def pyStrip (s : String) : String :=
  ⟨stripChars s.data⟩

/-- Model of Python `s.replace(" ", "")`: remove every space character. -/
def removeSpaces (s : String) : String :=
  ⟨s.data.filter (fun c => c ≠ ' ')⟩

/-- Boolean list-prefix test (model for Python string prefix matching). -/
def isPrefixOfB : List Char → List Char → Bool
  | [], _ => true
  | _ :: _, [] => false
  | a :: as, b :: bs => a == b && isPrefixOfB as bs

/-- Boolean list-suffix test, via reversal. -/
def isSuffixOfB (sfx l : List Char) : Bool :=
  isPrefixOfB sfx.reverse l.reverse

/-- Model of Python `s.endswith(sfx)`. -/
def endsWithSfx (s sfx : String) : Bool :=
  isSuffixOfB sfx.data s.data

/-- Boolean contiguous-sublist test (model of Python `needle in hay`). -/
def isInfixOfB : List Char → List Char → Bool
  | needle, [] => needle.isEmpty
  | needle, c :: t => isPrefixOfB needle (c :: t) || isInfixOfB needle t

/-- Model of Python substring membership `needle in hay`. -/
def hasSubstr (hay needle : String) : Bool :=
  isInfixOfB needle.data hay.data

/-- Split a character list at every occurrence of `sep` (model of the way a
separator-structured regex such as `%Y-%m-%d` decomposes its input). -/
def splitOnChar (sep : Char) : List Char → List (List Char)
  | [] => [[]]
  | c :: rest =>
    if c = sep then [] :: splitOnChar sep rest
    else
      match splitOnChar sep rest with
      | [] => [[c]]
      | h :: t => (c :: h) :: t

/-! ## Data model (`validation_agent.py`) -/

/-- Embedding of the pydantic model `DocumentFields`. -/
structure DocumentFields where
  name : String := ""
  dob : String := ""
  id_number : String := ""
  address : String := ""
  email : Option String := Option.none
  phone : Option String := Option.none
  nationality : Option String := Option.none
deriving Repr, DecidableEq

/-- Embedding of the pydantic model `ValidationResult`. -/
structure ValidationResult where
  is_valid : Bool
  issues : List String
deriving Repr, DecidableEq

/-- Classification of a Python value supplied for one field of the input
mapping: a `str`, the value `None`, or any other value (ints, lists, ...),
which is exactly the classification pydantic's `str` / `Optional[str]`
validation is sensitive to. -/
inductive PyValue where
  | str (s : String)
  | pynone
  | other
deriving Repr, DecidableEq

/-- The input mapping restricted to the seven keys `DocumentFields` declares;
`Option.none` means the key is absent (pydantic ignores extra keys). -/
structure InputMapping where
  name : Option PyValue := Option.none
  dob : Option PyValue := Option.none
  id_number : Option PyValue := Option.none
  address : Option PyValue := Option.none
  email : Option PyValue := Option.none
  phone : Option PyValue := Option.none
  nationality : Option PyValue := Option.none
deriving Repr, DecidableEq

/-- Pydantic validation of a value against a `str` field: only a `str`
value is accepted.  The carried error text abstracts the rendered text of
pydantic's `ValidationError`; only its presence matters to the claims. -/
def coerceStr : PyValue → Except String String
  | PyValue.str s => Except.ok s
  | PyValue.pynone => Except.error "Input should be a valid string"
  | PyValue.other => Except.error "Input should be a valid string"

/-- Pydantic validation of a value against an `Optional[str]` field:
a `str` or `None` is accepted. -/
def coerceOptStr : PyValue → Except String (Option String)
  | PyValue.str s => Except.ok (Option.some s)
  | PyValue.pynone => Except.ok Option.none
  | PyValue.other => Except.error "Input should be a valid string"

/-- Sequential field validation: stop at the first failing field, as the
constructor raises one `ValidationError` covering the offending fields. -/
def andThen (a : Except String α) (f : α → Except String β) : Except String β :=
  match a with
  | Except.ok v => f v
  | Except.error e => Except.error e

/-- Embedding of the strict parse `DocumentFields(**data)`: absent required
fields default to `""`, absent optional fields default to `None`. -/
def strictParse (m : InputMapping) : Except String DocumentFields :=
  andThen (coerceStr (m.name.getD (PyValue.str ""))) fun name =>
  andThen (coerceStr (m.dob.getD (PyValue.str ""))) fun dob =>
  andThen (coerceStr (m.id_number.getD (PyValue.str ""))) fun idn =>
  andThen (coerceStr (m.address.getD (PyValue.str ""))) fun addr =>
  andThen (coerceOptStr (m.email.getD PyValue.pynone)) fun email =>
  andThen (coerceOptStr (m.phone.getD PyValue.pynone)) fun phone =>
  andThen (coerceOptStr (m.nationality.getD PyValue.pynone)) fun nat =>
  Except.ok ⟨name, dob, idn, addr, email, phone, nat⟩

/-- Embedding of the fallback construction
`DocumentFields(**{k: data.get(k, "") for k in DocumentFields.model_fields})`:
every absent field (optional ones included) defaults to `""`, while present
values are passed through unchanged and re-validated by the constructor. -/
def fallbackParse (m : InputMapping) : Except String DocumentFields :=
  andThen (coerceStr (m.name.getD (PyValue.str ""))) fun name =>
  andThen (coerceStr (m.dob.getD (PyValue.str ""))) fun dob =>
  andThen (coerceStr (m.id_number.getD (PyValue.str ""))) fun idn =>
  andThen (coerceStr (m.address.getD (PyValue.str ""))) fun addr =>
  andThen (coerceOptStr (m.email.getD (PyValue.str ""))) fun email =>
  andThen (coerceOptStr (m.phone.getD (PyValue.str ""))) fun phone =>
  andThen (coerceOptStr (m.nationality.getD (PyValue.str ""))) fun nat =>
  Except.ok ⟨name, dob, idn, addr, email, phone, nat⟩

/-- Whether a supplied value (or an absent one) passes validation against a
required `str` field. -/
def reqOk : Option PyValue → Bool
  | Option.some (PyValue.str _) => true
  | Option.some PyValue.pynone => false
  | Option.some PyValue.other => false
  | Option.none => true

/-- Whether a supplied value (or an absent one) passes validation against an
`Optional[str]` field, under either default. -/
def optPresentOk : Option PyValue → Bool
  | Option.some PyValue.other => false
  | Option.some (PyValue.str _) => true
  | Option.some PyValue.pynone => true
  | Option.none => true

/-! ## Field validators (`validation_agent.py`) -/

/-- Model of Python's proleptic Gregorian leap-year rule. -/
def isLeapYear (y : Nat) : Bool :=
  y % 4 == 0 && (y % 100 != 0 || y % 400 == 0)

/-- Number of days in a month, as enforced by `datetime`. -/
def daysInMonth (y m : Nat) : Nat :=
  if m == 2 then (if isLeapYear y then 29 else 28)
  else if m == 4 || m == 6 || m == 9 || m == 11 then 30
  else 31

/-- Numeric value of a digit string. -/
def natOfDigits (l : List Char) : Nat :=
  l.foldl (fun a c => a * 10 + (c.toNat - 48)) 0

/-- Model of strptime's `%Y` component: exactly four digits, and the
resulting year accepted by `datetime` (at least 1; at most 9999 holds
automatically for four digits). -/
def okYear (l : List Char) : Bool :=
  l.length == 4 && l.all Char.isDigit && decide (1 ≤ natOfDigits l)

/-- Model of strptime's `%m` component: one or two digits, value 1..12. -/
def okMonth (l : List Char) : Bool :=
  (l.length == 1 || l.length == 2) && l.all Char.isDigit &&
    decide (1 ≤ natOfDigits l) && decide (natOfDigits l ≤ 12)

/-- Model of strptime's `%d` component: one or two digits, value 1..31. -/
def okDayShape (l : List Char) : Bool :=
  (l.length == 1 || l.length == 2) && l.all Char.isDigit &&
    decide (1 ≤ natOfDigits l) && decide (natOfDigits l ≤ 31)

/-- Year, month and day components form a date accepted by
`datetime.strptime`: the shapes match and the day exists in the month. -/
def validDate (ys ms ds : List Char) : Bool :=
  okYear ys && okMonth ms && okDayShape ds &&
    decide (natOfDigits ds ≤ daysInMonth (natOfDigits ys) (natOfDigits ms))

/-- The list `DATE_FORMATS` of `validation_agent.py`. -/
def DATE_FORMATS : List String :=
  ["%Y-%m-%d", "%d-%m-%Y", "%d/%m/%Y", "%m/%d/%Y"]

/-- Model of `datetime.strptime(s, fmt)` succeeding, for the four formats
of `DATE_FORMATS` (any other format string is mapped to failure; only the
four listed ones are ever used). -/
def strptimeOk (fmt : String) (s : String) : Bool :=
  if fmt = "%Y-%m-%d" then
    match splitOnChar '-' s.data with
    | [y, m, d] => validDate y m d
    | _ => false
  else if fmt = "%d-%m-%Y" then
    match splitOnChar '-' s.data with
    | [d, m, y] => validDate y m d
    | _ => false
  else if fmt = "%d/%m/%Y" then
    match splitOnChar '/' s.data with
    | [d, m, y] => validDate y m d
    | _ => false
  else if fmt = "%m/%d/%Y" then
    match splitOnChar '/' s.data with
    | [m, d, y] => validDate y m d
    | _ => false
  else false

/-- Issue text for an unparseable date of birth. -/
def dobInvalidMsg : String :=
  "dob has invalid format; expected YYYY-MM-DD or common variants"

/-- Issue text for a malformed identification number (field validator). -/
def idInvalidMsg : String :=
  "id_number format invalid; expected alphanumeric with optional hyphen, length>=5"

/-- Embedding of `_validate_date`: the Python function appends to a shared
issues list; here it returns the list of issues it appends. -/
def validate_date (dob : String) : List String :=
  if dob = "" then ["dob is missing"]
  else if DATE_FORMATS.any (fun fmt => strptimeOk fmt dob) then []
  else [dobInvalidMsg]

/-- Character class of `ID_REGEX`: ASCII alphanumeric or hyphen. -/
def isIdShape (l : List Char) : Bool :=
  decide (5 ≤ l.length) && l.all (fun c => c.isAlphanum || c == '-')

/-- Model of `PATTERN.match(s)` succeeding for a pattern of the form
`^shape$`: in Python the `$` anchor also matches just before a single
newline at the end of the string. -/
def pyMatchDollar (shape : List Char → Bool) (s : String) : Bool :=
  shape s.data || (s.data.getLast? == Option.some '\n' && shape s.data.dropLast)

/-- Embedding of `_validate_id_number` (issues it appends). -/
def validate_id_number (idn : String) : List String :=
  if idn = "" then ["id_number is missing"]
  else if pyMatchDollar isIdShape idn then []
  else [idInvalidMsg]

/-- Embedding of `_validate_non_empty` (issues it appends); the parsed
model guarantees the value is a string, so the `None` branch of the
Python check cannot fire. -/
def validate_non_empty (field_name : String) (value : String) : List String :=
  if pyStrip value = "" then [field_name ++ " is missing"] else []

/-- The four field checks of `validate_document_fields`, in source order. -/
def fieldIssues (p : DocumentFields) : List String :=
  validate_non_empty "name" p.name ++ validate_date p.dob ++
    validate_id_number p.id_number ++ validate_non_empty "address" p.address

/-- The schema-validation issue recorded on a strict-parse failure,
`f"schema validation error: {e}"`. -/
def schemaIssue (e : String) : String := "schema validation error: " ++ e

/-- Embedding of `validate_document_fields`.  The `try/except` around the
strict parse is the `Except` match; a `ValidationError` raised by the
fallback construction inside the `except` block is not caught by anything
and propagates, which the `Except.error` result models. -/
def validate_document_fields (data : InputMapping) :
    Except String (DocumentFields × ValidationResult) :=
  match strictParse data with
  | Except.ok parsed =>
    let issues := fieldIssues parsed
    Except.ok (parsed, ⟨issues.isEmpty, issues⟩)
  | Except.error e =>
    match fallbackParse data with
    | Except.ok parsed =>
      let issues := schemaIssue e :: fieldIssues parsed
      Except.ok (parsed, ⟨issues.isEmpty, issues⟩)
    | Except.error e2 => Except.error e2

/-! ## Identity rules and decision engine (`kyc_agent.py`) -/

/-- Shape of `AADHAAR_RE`, `^\d{12}$`: twelve digits. -/
def isAadhaarShape (l : List Char) : Bool :=
  l.length == 12 && l.all Char.isDigit

/-- Shape of `GST_RE`, `^[0-9A-Z]{15}$` with `IGNORECASE`: fifteen
alphanumeric characters. -/
def isGstShape (l : List Char) : Bool :=
  l.length == 15 && l.all Char.isAlphanum

/-- Shape of `PAN_RE`, `^[A-Z]{5}\d{4}[A-Z]{1}$` with `IGNORECASE`:
five letters, four digits, one letter. -/
def isPanShape (l : List Char) : Bool :=
  l.length == 10 && (l.take 5).all Char.isAlpha &&
    ((l.drop 5).take 4).all Char.isDigit && (l.drop 9).all Char.isAlpha

/-- The identification number matches one of the three shapes proper
(no trailing-newline allowance). -/
def matchesAnyShape (s : String) : Bool :=
  isAadhaarShape s.data || isGstShape s.data || isPanShape s.data

/-- One of the three compiled patterns matches under `re.match`,
trailing-newline allowance of `$` included. -/
def matchesDollarAny (s : String) : Bool :=
  pyMatchDollar isAadhaarShape s || pyMatchDollar isGstShape s ||
    pyMatchDollar isPanShape s

/-- A reference rule: the one field `_check_id_rules` reads.  `Option.none`
models an absent or falsy (`None`, empty) `blacklist_id` entry; a present
non-string truthy value is modelled by its `str(...)` rendering. -/
structure ReferenceRule where
  blacklist_id : Option String := Option.none
deriving Repr, DecidableEq

/-- The set comprehension
`{str(r.get("blacklist_id")).strip() for r in reference_rules if r.get("blacklist_id")}`,
as a list used only for membership. -/
def blacklistSet (rules : List ReferenceRule) : List String :=
  rules.filterMap (fun r =>
    match r.blacklist_id with
    | Option.some s => if s = "" then Option.none else Option.some (pyStrip s)
    | Option.none => Option.none)

/-- Issue text of the format check in `_check_id_rules`. -/
def formatIssueMsg : String :=
  "id_number does not match Aadhaar(12d)/GST(15)/PAN(10) formats"

/-- Issue text of the blacklist check in `_check_id_rules`. -/
def blacklistIssueMsg : String :=
  "id_number is blacklisted in reference data"

/-- The format-check contribution of `_check_id_rules`: an issue exactly
when none of the three patterns matches. -/
def formatPart (id_num : String) : List String :=
  if matchesDollarAny id_num then [] else [formatIssueMsg]

/-- The blacklist-check contribution of `_check_id_rules`; the guard
`if reference_rules:` is falsy both for `None` and for the empty list. -/
def blacklistPart (id_num : String) :
    Option (List ReferenceRule) → List String
  | Option.none => []
  | Option.some rules =>
    if rules = [] then []
    else if id_num ∈ blacklistSet rules then [blacklistIssueMsg] else []

/-- Embedding of `_check_id_rules`. -/
def check_id_rules (fields : DocumentFields)
    (reference_rules : Option (List ReferenceRule)) : List String :=
  let id_num := removeSpaces fields.id_number
  formatPart id_num ++ blacklistPart id_num reference_rules

/-- Embedding of `_mock_api_check`. -/
def mock_api_check (fields : DocumentFields) : Bool × String :=
  let id_num := pyStrip fields.id_number
  if endsWithSfx id_num "0000" then (false, "mock api: suspicious pattern")
  else (true, "mock api: ok")

/-- Outcome of the OpenCV image work inside `_optional_face_match` when
both paths are supplied: one of the images failed to decode, a histogram
score was computed (carrying whether `score > 0.9` and the formatted
note), or an exception was raised with the given message. -/
inductive CvOutcome where
  | unreadable
  | score (isMatch : Bool) (note : String)
  | exn (msg : String)
deriving Repr, DecidableEq

/-- Environment abstracting the file system and OpenCV: what the image
work yields for a given pair of paths. -/
structure FaceEnv where
  read : String → String → CvOutcome

/-- A Python path argument is falsy when it is `None` or empty. -/
def isFalsyPath : Option String → Bool
  | Option.none => true
  | Option.some s => s == ""

/-- Embedding of `_optional_face_match`, relative to a `FaceEnv`. -/
def optional_face_match (env : FaceEnv) (id_image_path selfie_image_path : Option String) :
    Option Bool × String :=
  if isFalsyPath id_image_path || isFalsyPath selfie_image_path then
    (Option.none, "no face images provided")
  else
    match env.read (id_image_path.getD "") (selfie_image_path.getD "") with
    | CvOutcome.unreadable => (Option.none, "face images unreadable")
    | CvOutcome.score m note => (Option.some m, note)
    | CvOutcome.exn e => (Option.none, "face match error: " ++ e)

/-- The enumeration `KycDecision` with its serialized string values. -/
def KycDecision.APPROVED : String := "verified"

/-- Serialized value of the pending-review decision. -/
def KycDecision.PENDING : String := "pending_review"

/-- Serialized value of the rejected decision. -/
def KycDecision.REJECTED : String := "failed"

/-- The metadata mapping built by `run_kyc`: it always holds exactly the
keys `external_note` and `face_match_note`. -/
structure KycMeta where
  external_note : String
  face_match_note : String
deriving Repr, DecidableEq

/-- Embedding of `run_kyc`, relative to a `FaceEnv`. -/
def run_kyc (env : FaceEnv) (fields : DocumentFields)
    (reference_rules : Option (List ReferenceRule))
    (id_face_path selfie_path : Option String) :
    String × List String × KycMeta :=
  let issues1 := check_id_rules fields reference_rules
  let api := mock_api_check fields
  let issues2 := issues1 ++
    (if api.1 then [] else ["external verification failed: " ++ api.2])
  let fm := optional_face_match env id_face_path selfie_path
  let issues3 := issues2 ++
    (if fm.1 = Option.some false then ["face match failed"] else [])
  let decision :=
    if issues3 = [] then KycDecision.APPROVED
    else if issues3.any (fun i => !hasSubstr i "blacklisted") then KycDecision.PENDING
    else KycDecision.REJECTED
  (decision, issues3, { external_note := api.2, face_match_note := fm.2 })

/-! ## Audit reporter (`audit_agent.py`) -/

/-- Model of Python `"\n".join(lines)`. -/
def joinWithNewlines : List String → String
  | [] => ""
  | [x] => x
  | x :: y :: rest => x ++ "\n" ++ joinWithNewlines (y :: rest)

/-- Embedding of `generate_audit_report`; `data.name or 'N/A'` reads the
field when it is non-empty and the literal `N/A` otherwise. -/
def generate_audit_report (data : DocumentFields) (validation : ValidationResult) : String :=
  if validation.is_valid then
    "Valid document. All required fields present and correctly formatted. Name: "
      ++ (if data.name = "" then "N/A" else data.name) ++
      ", DOB: " ++ (if data.dob = "" then "N/A" else data.dob) ++
      ", ID: " ++ (if data.id_number = "" then "N/A" else data.id_number) ++ "."
  else
    joinWithNewlines ("Document has issues:" :: validation.issues.map (fun i => "- " ++ i))

/-- A trivial concrete environment, used to instantiate theorems. -/
def trivEnv : FaceEnv := ⟨fun _ _ => CvOutcome.unreadable⟩

/-- Claim-side rendering of the issue block of an audit report: one line
per issue, each introduced by a newline and a dash. -/
def issueLinesBlock : List String → String
  | [] => ""
  | i :: rest => "\n- " ++ i ++ issueLinesBlock rest

/-! ## Helper lemmas -/

theorem run_kyc_issues_eq (env : FaceEnv) (fields : DocumentFields)
    (rules : Option (List ReferenceRule)) (p q : Option String) :
    (run_kyc env fields rules p q).2.1 =
      (check_id_rules fields rules ++
        (if (mock_api_check fields).1 then []
          else ["external verification failed: " ++ (mock_api_check fields).2])) ++
        (if (optional_face_match env p q).1 = Option.some false
          then ["face match failed"] else []) := rfl

theorem check_id_rules_eq (fields : DocumentFields)
    (rules : Option (List ReferenceRule)) :
    check_id_rules fields rules =
      formatPart (removeSpaces fields.id_number) ++
        blacklistPart (removeSpaces fields.id_number) rules := rfl

theorem run_kyc_decision_eq (env : FaceEnv) (fields : DocumentFields)
    (rules : Option (List ReferenceRule)) (p q : Option String) :
    (run_kyc env fields rules p q).1 =
      (if (run_kyc env fields rules p q).2.1 = [] then KycDecision.APPROVED
       else if (run_kyc env fields rules p q).2.1.any
          (fun i => !hasSubstr i "blacklisted") then KycDecision.PENDING
       else KycDecision.REJECTED) := rfl

theorem isPrefixOfB_iff (p : List Char) :
    ∀ l, isPrefixOfB p l = true ↔ ∃ t, l = p ++ t := by
  induction p with
  | nil => intro l; simp [isPrefixOfB]
  | cons a as ih =>
    intro l
    cases l with
    | nil => simp [isPrefixOfB]
    | cons b bs =>
      simp only [isPrefixOfB, Bool.and_eq_true, beq_iff_eq, ih bs, List.cons_append]
      constructor
      · rintro ⟨rfl, t, rfl⟩; exact ⟨t, rfl⟩
      · rintro ⟨t, ht⟩
        cases ht
        exact ⟨rfl, t, rfl⟩

theorem isSuffixOfB_iff (z l : List Char) :
    isSuffixOfB z l = true ↔ ∃ a, l = a ++ z := by
  unfold isSuffixOfB
  rw [isPrefixOfB_iff]
  constructor
  · rintro ⟨t, ht⟩
    refine ⟨t.reverse, ?_⟩
    have h2 := congrArg List.reverse ht
    simpa using h2
  · rintro ⟨a, rfl⟩
    exact ⟨a.reverse, by simp⟩

theorem dropWhile_head_not (p : Char → Bool) :
    ∀ (l : List Char) (c : Char),
      (List.dropWhile p l).head? = Option.some c → p c = false := by
  intro l
  induction l with
  | nil => intro c h; simp [List.dropWhile] at h
  | cons a t ih =>
    intro c h
    rw [List.dropWhile_cons] at h
    by_cases ha : p a = true
    · rw [if_pos ha] at h; exact ih c h
    · rw [if_neg ha] at h
      simp only [List.head?_cons, Option.some.injEq] at h
      subst h
      exact Bool.not_eq_true _ ▸ (by simpa using ha)

theorem stripChars_getLast_not_ws (l : List Char) (c : Char)
    (h : (stripChars l).getLast? = Option.some c) : c.isWhitespace = false := by
  unfold stripChars at h
  rw [List.getLast?_reverse] at h
  exact dropWhile_head_not _ _ c h

theorem stripChars_suffix_0000 (l : List Char)
    (h : isSuffixOfB "0000".data l = true) :
    isSuffixOfB "0000".data (stripChars l) = true := by
  rw [isSuffixOfB_iff] at h ⊢
  obtain ⟨a, rfl⟩ := h
  obtain ⟨b, hb⟩ : ∃ b,
      (a ++ "0000".data).dropWhile Char.isWhitespace = b ++ "0000".data := by
    induction a with
    | nil => exact ⟨[], by decide⟩
    | cons x a' ih =>
      obtain ⟨b', hb'⟩ := ih
      by_cases hx : Char.isWhitespace x = true
      · exact ⟨b', by rw [List.cons_append, List.dropWhile_cons, if_pos hx]; exact hb'⟩
      · exact ⟨x :: a', by rw [List.cons_append, List.dropWhile_cons, if_neg hx]⟩
  refine ⟨b, ?_⟩
  unfold stripChars
  rw [hb, List.reverse_append]
  have h0 : ("0000".data).reverse = '0' :: "000".data := by decide
  rw [h0, List.cons_append, List.dropWhile_cons, if_neg (by decide),
    ← List.cons_append, ← h0, ← List.reverse_append, List.reverse_reverse]

theorem pyStrip_data (s : String) : (pyStrip s).data = stripChars s.data := rfl

theorem pyStrip_getLast_ne_newline (s : String) :
    (pyStrip s).data.getLast? ≠ Option.some '\n' := by
  intro h
  rw [pyStrip_data] at h
  have h2 := stripChars_getLast_not_ws s.data '\n' h
  simp at h2

theorem pyMatchDollar_eq_plain (sh : List Char → Bool) (s : String)
    (h : s.data.getLast? ≠ Option.some '\n') :
    pyMatchDollar sh s = sh s.data := by
  unfold pyMatchDollar
  have hb : (s.data.getLast? == Option.some '\n') = false := by
    simpa using h
  rw [hb]
  simp

theorem matchesDollarAny_eq_plain (s : String)
    (h : s.data.getLast? ≠ Option.some '\n') :
    matchesDollarAny s = matchesAnyShape s := by
  unfold matchesDollarAny matchesAnyShape
  rw [pyMatchDollar_eq_plain _ _ h, pyMatchDollar_eq_plain _ _ h,
    pyMatchDollar_eq_plain _ _ h]

theorem blacklistSet_mem_strip (rules : List ReferenceRule) (t : String)
    (h : t ∈ blacklistSet rules) : ∃ s₀, t = pyStrip s₀ := by
  unfold blacklistSet at h
  rw [List.mem_filterMap] at h
  obtain ⟨r, _, hr⟩ := h
  cases hbl : r.blacklist_id with
  | none => rw [hbl] at hr; simp at hr
  | some s =>
    rw [hbl] at hr
    by_cases hs : s = ""
    · simp [hs] at hr
    · simp only [hs, if_false] at hr
      simp only [Option.some.injEq] at hr
      exact ⟨s, hr.symm⟩

theorem endsWith_pyStrip_of_endsWith (s : String)
    (h : endsWithSfx s "0000" = true) :
    endsWithSfx (pyStrip s) "0000" = true := by
  unfold endsWithSfx at h ⊢
  rw [pyStrip_data]
  exact stripChars_suffix_0000 s.data h

theorem mock_api_check_cases (fields : DocumentFields) :
    (endsWithSfx (pyStrip fields.id_number) "0000" = true ∧
      mock_api_check fields = (false, "mock api: suspicious pattern")) ∨
    (endsWithSfx (pyStrip fields.id_number) "0000" = false ∧
      mock_api_check fields = (true, "mock api: ok")) := by
  unfold mock_api_check
  by_cases h : endsWithSfx (pyStrip fields.id_number) "0000" = true
  · exact Or.inl ⟨h, by rw [if_pos h]⟩
  · exact Or.inr ⟨by simpa using h, by rw [if_neg h]⟩

/-! ## Claim theorems -/

/-- C1: for every document-fields value, optional reference-rule list and
pair of optional image paths (and every environment for the image work),
`run_kyc` returns Approved when its accumulated issues list is empty,
PendingReview (and not Rejected) when some issue's text does not contain
the substring "blacklisted" — in particular whenever a blacklist hit
co-occurs with any other issue — and Rejected when the issues list is
non-empty and every issue's text contains "blacklisted". -/
theorem C1_decision_policy (env : FaceEnv) (fields : DocumentFields)
    (rules : Option (List ReferenceRule)) (p q : Option String) :
    ((run_kyc env fields rules p q).2.1 = [] →
      (run_kyc env fields rules p q).1 = KycDecision.APPROVED) ∧
    ((∃ i ∈ (run_kyc env fields rules p q).2.1, hasSubstr i "blacklisted" = false) →
      (run_kyc env fields rules p q).1 = KycDecision.PENDING ∧
      (run_kyc env fields rules p q).1 ≠ KycDecision.REJECTED) ∧
    ((run_kyc env fields rules p q).2.1 ≠ [] →
      (∀ i ∈ (run_kyc env fields rules p q).2.1, hasSubstr i "blacklisted" = true) →
      (run_kyc env fields rules p q).1 = KycDecision.REJECTED) := by
  have hdec := run_kyc_decision_eq env fields rules p q
  refine ⟨?_, ?_, ?_⟩
  · intro h
    rw [hdec, if_pos h]
  · rintro ⟨i, hi, hb⟩
    have hne : (run_kyc env fields rules p q).2.1 ≠ [] := by
      intro h0
      rw [h0] at hi
      exact absurd hi (List.not_mem_nil i)
    have hany : (run_kyc env fields rules p q).2.1.any
        (fun i => !hasSubstr i "blacklisted") = true :=
      List.any_eq_true.mpr ⟨i, hi, by rw [hb]; rfl⟩
    rw [hdec, if_neg hne, if_pos hany]
    exact ⟨rfl, by decide⟩
  · intro hne hall
    have hany : (run_kyc env fields rules p q).2.1.any
        (fun i => !hasSubstr i "blacklisted") = false := by
      rw [List.any_eq_false]
      intro i hi
      rw [hall i hi]
      decide
    rw [hdec, if_neg hne, if_neg (by rw [hany]; decide)]

/-- Witness for C1: on empty fields the engine produces the format issue
(which does not contain "blacklisted") and reaches PendingReview. -/
theorem C1_witness :
    (run_kyc trivEnv {} Option.none Option.none Option.none).1 = KycDecision.PENDING :=
  ((C1_decision_policy trivEnv {} Option.none Option.none Option.none).2.1
    ⟨formatIssueMsg, by decide, by decide⟩).1

/-- C3: whenever `validate_document_fields` returns, the `ValidationResult`
it returns satisfies `is_valid = true` exactly when its issues list is
empty. -/
theorem C3_is_valid_iff (data : InputMapping) (df : DocumentFields)
    (vr : ValidationResult)
    (h : validate_document_fields data = Except.ok (df, vr)) :
    vr.is_valid = true ↔ vr.issues = [] := by
  unfold validate_document_fields at h
  cases hs : strictParse data with
  | ok parsed =>
    rw [hs] at h
    simp only [Except.ok.injEq, Prod.mk.injEq] at h
    rw [← h.2]
    simp [List.isEmpty_iff]
  | error e =>
    rw [hs] at h
    cases hf : fallbackParse data with
    | ok parsed =>
      rw [hf] at h
      simp only [Except.ok.injEq, Prod.mk.injEq] at h
      rw [← h.2]
      simp [List.isEmpty_iff]
    | error e2 =>
      rw [hf] at h
      exact absurd h (by simp)

/-- Witness for C3: the empty mapping parses to all-empty fields with four
missing-field issues and `is_valid = false`. -/
theorem C3_witness :
    validate_document_fields {} =
      Except.ok (⟨"", "", "", "", Option.none, Option.none, Option.none⟩,
        ⟨false, ["name is missing", "dob is missing", "id_number is missing",
          "address is missing"]⟩) ∧
    ((false = true) ↔
      (["name is missing", "dob is missing", "id_number is missing",
        "address is missing"] = ([] : List String))) :=
  ⟨rfl, C3_is_valid_iff {} _ _ rfl⟩

/-- C5: for a supplied non-empty rule list, `_check_id_rules` adds the
blacklist issue exactly when the space-normalized identification number is
in the set of stripped non-empty `blacklist_id` values, and this check is
additive to (appended after, independent of) the format check. -/
theorem C5_blacklist_rule (fields : DocumentFields)
    (rules : List ReferenceRule) (h : rules ≠ []) :
    (check_id_rules fields (Option.some rules) =
      formatPart (removeSpaces fields.id_number) ++
        (if removeSpaces fields.id_number ∈ blacklistSet rules
          then [blacklistIssueMsg] else [])) ∧
    (blacklistIssueMsg ∈ check_id_rules fields (Option.some rules) ↔
      removeSpaces fields.id_number ∈ blacklistSet rules) := by
  have hb : blacklistPart (removeSpaces fields.id_number) (Option.some rules) =
      (if removeSpaces fields.id_number ∈ blacklistSet rules
        then [blacklistIssueMsg] else []) := by
    simp only [blacklistPart]
    rw [if_neg h]
  constructor
  · show formatPart (removeSpaces fields.id_number) ++
      blacklistPart (removeSpaces fields.id_number) (Option.some rules) = _
    rw [hb]
  · show blacklistIssueMsg ∈ formatPart (removeSpaces fields.id_number) ++
      blacklistPart (removeSpaces fields.id_number) (Option.some rules) ↔ _
    rw [hb]
    by_cases hm : removeSpaces fields.id_number ∈ blacklistSet rules
    · rw [if_pos hm]
      simp [hm]
    · rw [if_neg hm]
      simp only [List.append_nil, iff_false_intro hm, iff_false]
      intro hmem
      unfold formatPart at hmem
      by_cases hf : matchesDollarAny (removeSpaces fields.id_number) = true
      · rw [if_pos hf] at hmem
        exact absurd hmem (List.not_mem_nil _)
      · rw [if_neg hf] at hmem
        have : blacklistIssueMsg = formatIssueMsg := List.mem_singleton.mp hmem
        exact absurd this (by decide)

/-- Witness for C5: an ill-formed, blacklisted identification number yields
both the format issue and the blacklist issue. -/
theorem C5_witness :
    check_id_rules { id_number := "BAD1" }
      (Option.some [{ blacklist_id := Option.some "BAD1" }]) =
      [formatIssueMsg, blacklistIssueMsg] :=
  ((C5_blacklist_rule { id_number := "BAD1" }
    [{ blacklist_id := Option.some "BAD1" }] (by decide)).1).trans (by decide)

/-- C7 (amended): `_mock_api_check` is a total function that returns
`ok = false` exactly when the whitespace-stripped identification number
ends with the literal suffix "0000", and otherwise returns `ok = true`. -/
theorem C7_mock_api (fields : DocumentFields) :
    ((mock_api_check fields).1 = false ↔
      endsWithSfx (pyStrip fields.id_number) "0000" = true) ∧
    ((mock_api_check fields).1 = false →
      mock_api_check fields = (false, "mock api: suspicious pattern")) ∧
    ((mock_api_check fields).1 = true →
      mock_api_check fields = (true, "mock api: ok")) := by
  rcases mock_api_check_cases fields with ⟨he, hm⟩ | ⟨he, hm⟩
  · rw [hm]
    exact ⟨by simp [he], fun _ => rfl, by simp⟩
  · rw [hm]
    exact ⟨by simp [he], by simp, fun _ => rfl⟩

/-- Witness for C7: an identification number ending in "0000" makes the
check fail with the suspicious-pattern note. -/
theorem C7_witness :
    mock_api_check { id_number := "123456780000" } =
      (false, "mock api: suspicious pattern") :=
  (C7_mock_api { id_number := "123456780000" }).2.1 (by decide)

/-- Counterexample for C7 as stated: an identification number with a
trailing space does not end with "0000", yet the check returns
`ok = false`, because the code strips the number first. -/
theorem C7_counterexample :
    endsWithSfx ("0000 " : String) "0000" = false ∧
    mock_api_check { id_number := "0000 " } =
      (false, "mock api: suspicious pattern") := by
  constructor
  · decide
  · rfl

/-- C8: with either image path absent, the biometric matcher returns
`(None, "no face images provided")`; and inside `run_kyc` a match result
of `None` or `True` contributes no issue while exactly `False` appends
the issue "face match failed" after the other issues. -/
theorem C8_biometric (env : FaceEnv) :
    (∀ p q : Option String, p = Option.none ∨ q = Option.none →
      optional_face_match env p q = (Option.none, "no face images provided")) ∧
    (∀ (fields : DocumentFields) (rules : Option (List ReferenceRule))
        (p q : Option String),
      ((optional_face_match env p q).1 = Option.none →
        (run_kyc env fields rules p q).2.1 =
          check_id_rules fields rules ++
            (if (mock_api_check fields).1 then []
              else ["external verification failed: " ++ (mock_api_check fields).2])) ∧
      ((optional_face_match env p q).1 = Option.some false →
        (run_kyc env fields rules p q).2.1 =
          (check_id_rules fields rules ++
            (if (mock_api_check fields).1 then []
              else ["external verification failed: " ++ (mock_api_check fields).2])) ++
            ["face match failed"]) ∧
      ((optional_face_match env p q).1 = Option.some true →
        (run_kyc env fields rules p q).2.1 =
          check_id_rules fields rules ++
            (if (mock_api_check fields).1 then []
              else ["external verification failed: " ++ (mock_api_check fields).2]))) := by
  constructor
  · rintro p q (rfl | rfl)
    · unfold optional_face_match
      rw [if_pos (by rfl)]
    · unfold optional_face_match
      rw [if_pos (by simp [isFalsyPath])]
  · intro fields rules p q
    have hI := run_kyc_issues_eq env fields rules p q
    refine ⟨?_, ?_, ?_⟩
    · intro hm
      rw [hI, hm]
      simp
    · intro hm
      rw [hI, hm]
      simp
    · intro hm
      rw [hI, hm]
      simp

/-- Witness for C8: with the first path absent the matcher reports that no
face images were provided. -/
theorem C8_witness :
    optional_face_match trivEnv Option.none (Option.some "selfie.png") =
      (Option.none, "no face images provided") :=
  (C8_biometric trivEnv).1 Option.none (Option.some "selfie.png") (Or.inl rfl)


theorem andThen_ok_isOk (a : Except String α) (f : α → DocumentFields) :
    (andThen a (fun v => Except.ok (f v))).isOk = a.isOk := by
  cases a <;> rfl

theorem andThen_isOk_const (a : Except String α) (f : α → Except String β)
    (c : Bool) (hf : ∀ v, (f v).isOk = c) :
    (andThen a f).isOk = (a.isOk && c) := by
  cases a with
  | ok v => rw [show (andThen (Except.ok v) f) = f v from rfl, hf v]; rfl
  | error e => rfl

theorem coerceStr_req_isOk (x : Option PyValue) :
    (coerceStr (x.getD (PyValue.str ""))).isOk = reqOk x := by
  rcases x with _ | v
  · rfl
  · rcases v <;> rfl

theorem coerceOptStr_strict_isOk (x : Option PyValue) :
    (coerceOptStr (x.getD PyValue.pynone)).isOk = optPresentOk x := by
  rcases x with _ | v
  · rfl
  · rcases v <;> rfl

theorem coerceOptStr_fallback_isOk (x : Option PyValue) :
    (coerceOptStr (x.getD (PyValue.str ""))).isOk = optPresentOk x := by
  rcases x with _ | v
  · rfl
  · rcases v <;> rfl

/-- The strict parse succeeds exactly on inputs whose present values are
well-typed for their fields. -/
theorem strictParse_isOk (m : InputMapping) :
    (strictParse m).isOk =
      (reqOk m.name && (reqOk m.dob && (reqOk m.id_number && (reqOk m.address &&
        (optPresentOk m.email && (optPresentOk m.phone &&
        optPresentOk m.nationality)))))) := by
  unfold strictParse
  rw [andThen_isOk_const _ _ _
    (fun v1 => by
      rw [andThen_isOk_const _ _ _
        (fun v2 => by
          rw [andThen_isOk_const _ _ _
            (fun v3 => by
              rw [andThen_isOk_const _ _ _
                (fun v4 => by
                  rw [andThen_isOk_const _ _ _
                    (fun v5 => by
                      rw [andThen_isOk_const _ _ _
                        (fun v6 => by
                          rw [andThen_ok_isOk, coerceOptStr_strict_isOk]),
                        coerceOptStr_strict_isOk]),
                    coerceOptStr_strict_isOk]),
                coerceStr_req_isOk]),
            coerceStr_req_isOk]),
        coerceStr_req_isOk]),
    coerceStr_req_isOk]

/-- The fallback parse validates the same present values as the strict
parse, so it succeeds on exactly the same inputs. -/
theorem fallbackParse_isOk (m : InputMapping) :
    (fallbackParse m).isOk =
      (reqOk m.name && (reqOk m.dob && (reqOk m.id_number && (reqOk m.address &&
        (optPresentOk m.email && (optPresentOk m.phone &&
        optPresentOk m.nationality)))))) := by
  unfold fallbackParse
  rw [andThen_isOk_const _ _ _
    (fun v1 => by
      rw [andThen_isOk_const _ _ _
        (fun v2 => by
          rw [andThen_isOk_const _ _ _
            (fun v3 => by
              rw [andThen_isOk_const _ _ _
                (fun v4 => by
                  rw [andThen_isOk_const _ _ _
                    (fun v5 => by
                      rw [andThen_isOk_const _ _ _
                        (fun v6 => by
                          rw [andThen_ok_isOk, coerceOptStr_fallback_isOk]),
                        coerceOptStr_fallback_isOk]),
                    coerceOptStr_fallback_isOk]),
                coerceStr_req_isOk]),
            coerceStr_req_isOk]),
        coerceStr_req_isOk]),
    coerceStr_req_isOk]

/-- C2 (code bug): on a strict-parse failure caused by an ill-typed present
value — here a non-string (for instance an integer) supplied for `name` —
the fallback construction passes the same ill-typed value to the
`DocumentFields` constructor again, and the `ValidationError` raised
there is not caught by anything, so `validate_document_fields` terminates
abnormally instead of returning a best-effort partial result.  In
general the fallback succeeds on no input on which the strict parse
fails, since both validate the same present values, so the recovery path
described by the claim is unreachable. -/
theorem C2_validator_raises :
    (strictParse { name := Option.some PyValue.other }).isOk = false ∧
    (validate_document_fields { name := Option.some PyValue.other }).isOk = false ∧
    (∀ data : InputMapping, (strictParse data).isOk = false →
      (validate_document_fields data).isOk = false) := by
  refine ⟨rfl, rfl, ?_⟩
  intro data h
  have hfb : (fallbackParse data).isOk = false :=
    (fallbackParse_isOk data).trans ((strictParse_isOk data).symm.trans h)
  unfold validate_document_fields
  cases hsp : strictParse data with
  | ok p =>
    rw [hsp] at h
    exact Bool.noConfusion h
  | error e =>
    cases hfp : fallbackParse data with
    | ok p2 =>
      rw [hfp] at hfb
      exact Bool.noConfusion hfb
    | error e2 =>
      rfl


/-- Witness for C2: a `None` supplied for `dob` makes the strict parse
fail and the whole validator terminate abnormally. -/
theorem C2_witness :
    (strictParse { dob := Option.some PyValue.pynone }).isOk = false ∧
    (validate_document_fields { dob := Option.some PyValue.pynone }).isOk = false :=
  ⟨rfl, C2_validator_raises.2.2 { dob := Option.some PyValue.pynone } rfl⟩

theorem joinWithNewlines_issueLines (l : List String) :
    ∀ h : String, joinWithNewlines (h :: l.map (fun i => "- " ++ i)) =
      h ++ issueLinesBlock l := by
  induction l with
  | nil =>
    intro h
    show h = h ++ ""
    exact (String.append_empty h).symm
  | cons i rest ih =>
    intro h
    simp only [List.map_cons, joinWithNewlines, issueLinesBlock]
    rw [ih ("- " ++ i)]
    rw [String.append_assoc h "\n", ← String.append_assoc "\n" ("- " ++ i),
      ← String.append_assoc "\n" "- " i]
    rfl

/-- C9: for every fields value and validation result, the audit report is
the exact valid-document sentence with each field or the literal `N/A`
substituted when the report is valid, and otherwise the header line
"Document has issues:" followed by one "- issue" line per issue in
original order, newline-joined. -/
theorem C9_audit_report (data : DocumentFields) (validation : ValidationResult) :
    (validation.is_valid = true →
      generate_audit_report data validation =
        "Valid document. All required fields present and correctly formatted. Name: "
          ++ (if data.name = "" then "N/A" else data.name) ++ ", DOB: " ++
          (if data.dob = "" then "N/A" else data.dob) ++ ", ID: " ++
          (if data.id_number = "" then "N/A" else data.id_number) ++ ".") ∧
    (validation.is_valid = false →
      generate_audit_report data validation =
        "Document has issues:" ++ issueLinesBlock validation.issues) := by
  constructor
  · intro h
    unfold generate_audit_report
    rw [if_pos h]
  · intro h
    unfold generate_audit_report
    rw [if_neg (by rw [h]; exact Bool.noConfusion)]
    exact joinWithNewlines_issueLines validation.issues "Document has issues:"

/-- Witness for C9: both branches evaluated at concrete values. -/
theorem C9_witness :
    generate_audit_report
        ⟨"Jane Doe", "1990-05-12", "ABCDE1234F", "221B Baker Street",
          Option.none, Option.none, Option.none⟩ ⟨true, []⟩ =
      "Valid document. All required fields present and correctly formatted. Name: Jane Doe, DOB: 1990-05-12, ID: ABCDE1234F." ∧
    generate_audit_report ⟨"", "", "", "", Option.none, Option.none, Option.none⟩
        ⟨false, ["dob is missing", "address is missing"]⟩ =
      "Document has issues:\n- dob is missing\n- address is missing" :=
  ⟨((C9_audit_report _ _).1 rfl).trans (by decide),
   ((C9_audit_report _ _).2 rfl).trans (by decide)⟩

/-- C6: the date validator reports "dob is missing" on the empty string;
on a non-empty string it tries the four accepted layouts and adds nothing
when one succeeds, and adds the single invalid-format issue when none
does; it accepts the four documented examples and rejects "1990/05/12". -/
theorem C6_date_validator :
    validate_date "" = ["dob is missing"] ∧
    (∀ dob : String, dob ≠ "" →
      ((∃ fmt ∈ DATE_FORMATS, strptimeOk fmt dob = true) →
        validate_date dob = []) ∧
      ((∀ fmt ∈ DATE_FORMATS, strptimeOk fmt dob = false) →
        validate_date dob = [dobInvalidMsg])) ∧
    validate_date "1990-05-12" = [] ∧
    validate_date "12-05-1990" = [] ∧
    validate_date "12/05/1990" = [] ∧
    validate_date "05/12/1990" = [] ∧
    validate_date "1990/05/12" = [dobInvalidMsg] := by
  refine ⟨by decide, ?_, by decide, by decide, by decide, by decide, by decide⟩
  intro dob hne
  constructor
  · rintro ⟨fmt, hmem, hok⟩
    unfold validate_date
    rw [if_neg hne, if_pos (List.any_eq_true.mpr ⟨fmt, hmem, hok⟩)]
  · intro hall
    have hany : DATE_FORMATS.any (fun fmt => strptimeOk fmt dob) = false := by
      rw [List.any_eq_false]
      intro fmt hm
      rw [hall fmt hm]
      decide
    unfold validate_date
    rw [if_neg hne, if_neg (by rw [hany]; exact Bool.noConfusion)]

/-- Witness for C6: a further date in day/month/year layout is accepted. -/
theorem C6_witness : validate_date "31/12/1999" = [] :=
  (C6_date_validator.2.1 "31/12/1999" (by decide)).1
    ⟨"%d/%m/%Y", by decide, by decide⟩

/-- Counterexample for C4 as stated: after space normalization the string
"123456789012" followed by a newline matches none of the three shapes, yet
the checker adds no format issue, because Python's `$` anchor in the three
compiled patterns also matches just before a trailing newline. -/
theorem C4_counterexample :
    matchesAnyShape (removeSpaces ("123456789012\n" : String)) = false ∧
    check_id_rules { id_number := "123456789012\n" } Option.none = [] := by
  constructor
  · decide
  · rfl

/-- C4 (amended): `_check_id_rules` normalizes the identification number by
removing spaces and adds no format issue when the normalized number
matches one of the three shapes (12-digit numeric, 15-char alphanumeric,
5 letters + 4 digits + 1 letter, case-insensitive) or one of these
followed by a single trailing newline, and adds exactly one format issue
for any other string, independently of the supplied rules. -/
theorem C4_format_rule (fields : DocumentFields)
    (rules : Option (List ReferenceRule)) :
    (check_id_rules fields rules).count formatIssueMsg =
      (if matchesDollarAny (removeSpaces fields.id_number) then 0 else 1) := by
  rw [check_id_rules_eq, List.count_append]
  have h1 : (formatPart (removeSpaces fields.id_number)).count formatIssueMsg =
      (if matchesDollarAny (removeSpaces fields.id_number) then 0 else 1) := by
    unfold formatPart
    by_cases h : matchesDollarAny (removeSpaces fields.id_number) = true
    · rw [if_pos h, if_pos h]
      rfl
    · rw [if_neg h, if_neg h]
      decide
  have h2 : (blacklistPart (removeSpaces fields.id_number) rules).count
      formatIssueMsg = 0 := by
    cases rules with
    | none => rfl
    | some rs =>
      simp only [blacklistPart]
      by_cases h : rs = []
      · rw [if_pos h]
        rfl
      · rw [if_neg h]
        by_cases hm : removeSpaces fields.id_number ∈ blacklistSet rs
        · rw [if_pos hm]
          decide
        · rw [if_neg hm]
          rfl
  rw [h1, h2, Nat.add_zero]

/-- C10: `run_kyc` returns Rejected exactly when its issues list is the
one-element list holding the blacklist issue (no other issue text the
engine produces contains the substring "blacklisted"); consequently every
Rejected outcome implies the normalized identification number matched one
of the three accepted formats proper, the raw identification number does
not end with "0000", and the face-match result was not a failure. -/
theorem C10_rejected_iff_blacklist_only (env : FaceEnv) (fields : DocumentFields)
    (rules : Option (List ReferenceRule)) (p q : Option String) :
    ((run_kyc env fields rules p q).1 = KycDecision.REJECTED ↔
      (run_kyc env fields rules p q).2.1 = [blacklistIssueMsg]) ∧
    ((run_kyc env fields rules p q).1 = KycDecision.REJECTED →
      matchesAnyShape (removeSpaces fields.id_number) = true ∧
      endsWithSfx fields.id_number "0000" = false ∧
      (optional_face_match env p q).1 ≠ Option.some false) := by
  have hI := run_kyc_issues_eq env fields rules p q
  have hdec := run_kyc_decision_eq env fields rules p q
  have hrej : (run_kyc env fields rules p q).1 = KycDecision.REJECTED ↔
      ((run_kyc env fields rules p q).2.1 ≠ [] ∧
        ∀ i ∈ (run_kyc env fields rules p q).2.1,
          hasSubstr i "blacklisted" = true) := by
    constructor
    · intro h
      by_cases h0 : (run_kyc env fields rules p q).2.1 = []
      · rw [hdec, if_pos h0] at h
        exact absurd h (by decide)
      · refine ⟨h0, ?_⟩
        by_cases hany : (run_kyc env fields rules p q).2.1.any
            (fun i => !hasSubstr i "blacklisted") = true
        · rw [hdec, if_neg h0, if_pos hany] at h
          exact absurd h (by decide)
        · intro i hi
          have hf : (run_kyc env fields rules p q).2.1.any
              (fun i => !hasSubstr i "blacklisted") = false := by
            cases hx : (run_kyc env fields rules p q).2.1.any
                (fun i => !hasSubstr i "blacklisted")
            · rfl
            · exact absurd hx hany
          have h2 := List.any_eq_false.mp hf i hi
          simpa using h2
    · rintro ⟨hne, hall⟩
      have hany : (run_kyc env fields rules p q).2.1.any
          (fun i => !hasSubstr i "blacklisted") = false := by
        rw [List.any_eq_false]
        intro i hi
        rw [hall i hi]
        decide
      rw [hdec, if_neg hne, if_neg (by rw [hany]; exact Bool.noConfusion)]
  have hforward : (run_kyc env fields rules p q).1 = KycDecision.REJECTED →
      ((run_kyc env fields rules p q).2.1 = [blacklistIssueMsg] ∧
        matchesAnyShape (removeSpaces fields.id_number) = true ∧
        endsWithSfx fields.id_number "0000" = false ∧
        (optional_face_match env p q).1 ≠ Option.some false) := by
    intro h
    obtain ⟨hne, hall⟩ := hrej.mp h
    have hfmt : matchesDollarAny (removeSpaces fields.id_number) = true := by
      by_contra hc
      have hF : formatPart (removeSpaces fields.id_number) = [formatIssueMsg] := by
        unfold formatPart
        rw [if_neg hc]
      have hmem : formatIssueMsg ∈ (run_kyc env fields rules p q).2.1 := by
        rw [hI, check_id_rules_eq, hF]
        simp
      exact absurd (hall _ hmem) (by decide)
    have hF0 : formatPart (removeSpaces fields.id_number) = [] := by
      unfold formatPart
      rw [if_pos hfmt]
    have hext : endsWithSfx (pyStrip fields.id_number) "0000" = false := by
      rcases mock_api_check_cases fields with ⟨he, hm⟩ | ⟨he, hm⟩
      · exfalso
        have hmem : ("external verification failed: " ++ (mock_api_check fields).2) ∈
            (run_kyc env fields rules p q).2.1 := by
          rw [hI]
          simp [hm]
        have h2 := hall _ hmem
        rw [hm] at h2
        exact absurd h2 (by decide)
      · exact he
    have hE0 : (if (mock_api_check fields).1 then []
        else ["external verification failed: " ++ (mock_api_check fields).2]) = [] := by
      rcases mock_api_check_cases fields with ⟨he, hm⟩ | ⟨he, hm⟩
      · rw [he] at hext
        exact absurd hext (by decide)
      · rw [hm]
        rfl
    have hface : (optional_face_match env p q).1 ≠ Option.some false := by
      intro hc
      have hmem : "face match failed" ∈ (run_kyc env fields rules p q).2.1 := by
        rw [hI]
        simp [hc]
      exact absurd (hall _ hmem) (by decide)
    have hM0 : (if (optional_face_match env p q).1 = Option.some false
        then ["face match failed"] else []) = [] := by
      rw [if_neg hface]
    have hBeq : (run_kyc env fields rules p q).2.1 =
        blacklistPart (removeSpaces fields.id_number) rules := by
      rw [hI, check_id_rules_eq, hF0, hE0, hM0]
      simp
    have hBne : blacklistPart (removeSpaces fields.id_number) rules ≠ [] := by
      rw [← hBeq]
      exact hne
    obtain ⟨rs, hrs, hrsne, hmemb⟩ : ∃ rs, rules = Option.some rs ∧ rs ≠ [] ∧
        removeSpaces fields.id_number ∈ blacklistSet rs := by
      cases rules with
      | none => exact absurd rfl hBne
      | some rs =>
        by_cases hrse : rs = []
        · exfalso
          apply hBne
          simp only [blacklistPart]
          rw [if_pos hrse]
        · by_cases hmm : removeSpaces fields.id_number ∈ blacklistSet rs
          · exact ⟨rs, rfl, hrse, hmm⟩
          · exfalso
            apply hBne
            simp only [blacklistPart]
            rw [if_neg hrse, if_neg hmm]
    have hBval : blacklistPart (removeSpaces fields.id_number) rules =
        [blacklistIssueMsg] := by
      rw [hrs]
      simp only [blacklistPart]
      rw [if_neg hrsne, if_pos hmemb]
    obtain ⟨s₀, hs₀⟩ := blacklistSet_mem_strip rs _ hmemb
    have hnl : (removeSpaces fields.id_number).data.getLast? ≠ Option.some '\n' := by
      rw [hs₀]
      exact pyStrip_getLast_ne_newline s₀
    have hplain : matchesAnyShape (removeSpaces fields.id_number) = true := by
      rw [← matchesDollarAny_eq_plain _ hnl]
      exact hfmt
    have hraw : endsWithSfx fields.id_number "0000" = false := by
      cases hx : endsWithSfx fields.id_number "0000"
      · rfl
      · have h2 := endsWith_pyStrip_of_endsWith _ hx
        rw [h2] at hext
        exact Bool.noConfusion hext
    exact ⟨hBeq.trans hBval, hplain, hraw, hface⟩
  refine ⟨⟨fun h => (hforward h).1, fun h => ?_⟩, fun h => (hforward h).2⟩
  apply hrej.mpr
  constructor
  · rw [h]
    simp
  · intro i hi
    rw [h] at hi
    rw [List.mem_singleton.mp hi]
    decide

/-- Witness for C10: a well-formed PAN-shaped identification number on the
blacklist is Rejected, and the theorem yields its format, suffix and
face-match consequences. -/
theorem C10_witness :
    matchesAnyShape (removeSpaces
      ({ id_number := "ABCDE1234F" } : DocumentFields).id_number) = true ∧
    endsWithSfx ({ id_number := "ABCDE1234F" } : DocumentFields).id_number
      "0000" = false ∧
    (optional_face_match trivEnv Option.none Option.none).1 ≠
      Option.some false :=
  (C10_rejected_iff_blacklist_only trivEnv { id_number := "ABCDE1234F" }
    (Option.some [{ blacklist_id := Option.some "ABCDE1234F" }])
    Option.none Option.none).2 (by decide)

end KycSpec
